import Mathlib

/-!
# BSEB External Data Integration Layer — verification development

A shallow embedding of the BSEB backend's external-data integration layer
(`bseb-base.service.ts`, `form-data.service.ts`, the two variants of
`admit-card.service.ts`, and `bseb-api.config.ts`), together with theorems
settling the specified properties of the retry policy, the error normalizer,
the cache-aside fetch orchestration and the response transformers.

JavaScript runtime values that the transformers inspect dynamically are
modelled by the inductive `JVal` (with explicit `undefined` and `null`);
the Redis store is modelled as an association list together with flags
saying whether each cache operation throws; upstream HTTP calls are
modelled as oracles (`Except UpstreamError …`) consumed by the fetch
functions, which also return an explicit trace of the side effects they
performed (cache reads, upstream calls, cache writes, normalizer calls).
Wall-clock concerns (timestamps, TTL expiry, real sleeping) are outside the
embedding: `setInCache` receives the TTL argument but the store model keeps
no clock, and the retry loop records the sequence of requested delays.
-/

set_option autoImplicit false

namespace Bseb

/-- A JavaScript runtime value, as far as the integration layer inspects it:
`undefined` and `null` are distinguished (both are skipped by
`getFieldValue`, both are nullish for `??`), and objects are association
lists of fields. -/
inductive JVal where
  | undef
  | jnull
  | jbool (b : Bool)
  | jnum (n : Int)
  | jstr (s : String)
  | jobj (fields : List (String × JVal))
  | jarr (elems : List JVal)

namespace JVal

/-- Property access `o[k]`: defined field of an object, `undefined` otherwise. -/
def get : JVal → String → JVal
  | jobj fields, k =>
    match fields.find? (fun p => p.1 == k) with
    | some p => p.2
    | none => undef
  | _, _ => undef

/-- JavaScript nullish test (`v === undefined || v === null`), the guard of
`??` and the skip condition of `getFieldValue`. -/
def nullish : JVal → Bool
  | undef => true
  | jnull => true
  | _ => false

/-- JavaScript truthiness: `undefined`, `null`, `false`, `0` and `""` are
falsy; every object and array is truthy. -/
def truthy : JVal → Bool
  | undef => false
  | jnull => false
  | jbool b => b
  | jnum n => n != 0
  | jstr s => !s.isEmpty
  | jobj _ => true
  | jarr _ => true

/-- JavaScript `a || b`: `a` when truthy, else `b`. -/
def orElse (a b : JVal) : JVal :=
  if a.truthy then a else b

end JVal

/-- Embeds `a ?? b` on a `JVal` (used for `is_checked ?? false`, `readonly ?? true`). -/
def jsNullishOr (a b : JVal) : JVal :=
  if a.nullish then b else a

/-- JavaScript `m || dflt` where `m` is an optional string (an absent or empty
message falls back to the default), as in `apiResponse.message || '…'`. -/
def jsMsgOr (m : Option String) (dflt : String) : String :=
  match m with
  | some s => if s.isEmpty then dflt else s
  | none => dflt

/-- Embeds `BsebBaseService.getFieldValue(obj, ...keys)`: walk the candidate keys in
order and return the first value that is neither `undefined` nor `null`;
`undefined` when no candidate matches. -/
def getFieldValue (obj : JVal) : List String → JVal
  | [] => JVal.undef
  | k :: ks =>
    if (obj.get k).nullish then getFieldValue obj ks else obj.get k

/-! ## Configuration (`bseb-api.config.ts`) -/

/-- Embeds `BsebApiConfig.global.retryAttempts`. -/
def retryAttemptsConfig : Nat := 2

/-- Embeds `BsebApiConfig.global.retryDelay` (milliseconds). -/
def retryDelayConfig : Nat := 1000

/-- Embeds `BsebApiConfig.formData.cachePrefix`. -/
def formDataCacheNs : String := "bseb:form"

/-- Embeds `BsebApiConfig.formData.cacheTtl` (seconds). -/
def formDataCacheTtl : Nat := 86400

/-- Embeds `BsebApiConfig.admitCard.cachePrefix`. -/
def admitCardCacheNs : String := "bseb:admitcard"

/-- Embeds `BsebApiConfig.admitCard.cacheTtl` (seconds). -/
def admitCardCacheTtl : Nat := 3600

/-! ## Errors thrown by the HTTP layer -/

/-- An error reaching `executeWithRetry` / `handleApiError`, discriminated
exactly the way the source discriminates it with `axios.isAxiosError` and
`error.response`:
* `http status body`: an axios error carrying an upstream HTTP response
  (`error.response.status`, and `error.response.data?.message` when the
  response body has a message field);
* `network code`: an axios error without a response
  (`error.code` is e.g. `'ECONNABORTED'`, `'ENOTFOUND'`, `'ECONNREFUSED'`);
* `nonAxios`: any other thrown value (`axios.isAxiosError` is false). -/
inductive UpstreamError where
  | http (status : Nat) (body : Option String)
  | network (code : Option String)
  | nonAxios
deriving DecidableEq

namespace UpstreamError

/-- Embeds `error.response?.status` (present for axios errors with a response). -/
def httpStatus : UpstreamError → Option Nat
  | http s _ => some s
  | _ => none

/-- Whether the error carries an upstream HTTP response (and hence a body). -/
def hasResponse : UpstreamError → Bool
  | http _ _ => true
  | _ => false

/-- Embeds `error.code` for axios errors without a response. -/
def netCode : UpstreamError → Option String
  | network c => c
  | _ => none

end UpstreamError

/-- The client-error test of `executeWithRetry`: an axios error whose
response status is in `[400, 500)` is never retried. -/
def isClientError : UpstreamError → Bool
  | .http s _ => decide (400 ≤ s) && decide (s < 500)
  | _ => false

/-! ## Retry policy (`BsebBaseService.executeWithRetry`) -/

/-- Observable outcome of a run of `executeWithRetry`: the returned value or
the error thrown, the number of times the operation was invoked, and the
sequence of delays (in ms) slept between consecutive attempts. -/
structure RetryResult (α : Type) where
  result : Except UpstreamError α
  calls : Nat
  delays : List Nat

/-- The body of `executeWithRetry`'s `for` loop, for the current 0-indexed
`attempt`; `fuel` is the number of retries still allowed
(`retries - attempt`, so the loop delays and continues exactly when
`attempt < retries`).  The operation oracle `op` gives the outcome of each
attempt.  A client error (4xx) is rethrown at once; on exhaustion the last
observed error is rethrown; before each retry the loop sleeps
`retryDelay * (attempt + 1)`. -/
def retryGo {α : Type} (op : Nat → Except UpstreamError α) (d : Nat) :
    Nat → Nat → RetryResult α
  | attempt, 0 =>
    match op attempt with
    | .ok v => ⟨.ok v, 1, []⟩
    | .error e => ⟨.error e, 1, []⟩
  | attempt, fuel + 1 =>
    match op attempt with
    | .ok v => ⟨.ok v, 1, []⟩
    | .error e =>
      if isClientError e then ⟨.error e, 1, []⟩
      else
        let rest := retryGo op d (attempt + 1) fuel
        ⟨rest.result, rest.calls + 1, d * (attempt + 1) :: rest.delays⟩

/-- Embeds `executeWithRetry(requestFn, retries)` with retry base delay `d`:
runs attempts `0, 1, …` with at most `retries` retries after the first try. -/
def executeWithRetry {α : Type} (op : Nat → Except UpstreamError α)
    (retries : Nat) (d : Nat) : RetryResult α :=
  retryGo op d 0 retries

/-! ## Error normalizer (`BsebBaseService.handleApiError`) -/

/-- The closed taxonomy of domain error codes. -/
inductive ErrorCode where
  | NOT_FOUND
  | BAD_REQUEST
  | UNAUTHORIZED
  | SERVER_ERROR
  | API_ERROR
  | TIMEOUT
  | UNAVAILABLE
  | UNKNOWN_ERROR
deriving DecidableEq

/-- Embeds `BsebErrorResponse` as produced by `handleApiError` (its `success` field
is the literal `false`; the timestamp is outside the embedding). -/
structure BsebErrorResponse where
  message : String
  errorCode : ErrorCode
deriving DecidableEq

/-- Embeds `BsebBaseService.handleApiError(error, context, identifier)`:
normalize an upstream failure into the closed taxonomy with a sanitized
message (the `identifier` argument is only logged and does not influence the
returned value, so it is omitted). -/
def handleApiError (error : UpstreamError) (context : String) :
    BsebErrorResponse :=
  match error with
  | .http status body =>
    if status == 404 then
      ⟨jsMsgOr body "No record found for the given details.", .NOT_FOUND⟩
    else if status == 400 then
      ⟨jsMsgOr body "Invalid request parameters.", .BAD_REQUEST⟩
    else if status == 401 || status == 403 then
      ⟨"Access denied to BSEB services.", .UNAUTHORIZED⟩
    else if 500 ≤ status then
      ⟨"BSEB server error. Please try again later.", .SERVER_ERROR⟩
    else
      ⟨jsMsgOr body ("Failed to fetch " ++ context ++ "."), .API_ERROR⟩
  | .network code =>
    if code == some "ECONNABORTED" then
      ⟨"Request timed out. Please try again.", .TIMEOUT⟩
    else if code == some "ENOTFOUND" || code == some "ECONNREFUSED" then
      ⟨"BSEB server is currently unavailable. Please try again later.",
        .UNAVAILABLE⟩
    else
      ⟨"An unexpected error occurred. Please try again.", .UNKNOWN_ERROR⟩
  | .nonAxios =>
    ⟨"An unexpected error occurred. Please try again.", .UNKNOWN_ERROR⟩

/-! The specification side of the error normalizer: the §4.3 mapping table,
written as an ordered list of (condition, code) rows evaluated first match
wins, to be compared with `handleApiError`. -/

/-- One row of the spec's §4.3 mapping table. -/
def SpecRow : Type := (UpstreamError → Bool) × ErrorCode

/-- First-match-wins evaluation of an ordered mapping table; the final
`anything else` row yields `UNKNOWN_ERROR`. -/
def firstMatch : List SpecRow → UpstreamError → ErrorCode
  | [], _ => .UNKNOWN_ERROR
  | row :: rows, e => if row.1 e then row.2 else firstMatch rows e

/-- The §4.3 mapping table of the spec, row for row: 404, 400, 401/403,
≥500, any other HTTP status with a response body, connection timeout,
DNS failure / connection refused. -/
def specTable : List SpecRow :=
  [ (fun e => e.httpStatus == some 404, .NOT_FOUND),
    (fun e => e.httpStatus == some 400, .BAD_REQUEST),
    (fun e => e.httpStatus == some 401 || e.httpStatus == some 403,
      .UNAUTHORIZED),
    (fun e => match e.httpStatus with
      | some s => decide (500 ≤ s)
      | none => false, .SERVER_ERROR),
    (fun e => e.hasResponse, .API_ERROR),
    (fun e => e.netCode == some "ECONNABORTED", .TIMEOUT),
    (fun e => e.netCode == some "ENOTFOUND"
        || e.netCode == some "ECONNREFUSED", .UNAVAILABLE) ]

/-- Modelled from the spec: the §4.3 classification as the ordered table. -/
def specClassify (e : UpstreamError) : ErrorCode :=
  firstMatch specTable e

/-! ## Response envelope (`BsebBaseResponse`) -/

/-- The uniform envelope returned to callers
(`{success, data?, message?, cached?, errorCode?}`, runtime shape of
`BsebBaseResponse` plus the `errorCode` added by error responses; absent
optional fields are `none`; the timestamp is outside the embedding). -/
structure Envelope (α : Type) where
  success : Bool
  data : Option α
  message : Option String
  cached : Option Bool
  errorCode : Option ErrorCode

/-- Embeds `BsebBaseService.createSuccessResponse(data, cached)`. -/
def createSuccessResponse {α : Type} (data : α) (cached : Bool) :
    Envelope α :=
  { success := true, data := some data, message := none,
    cached := some cached, errorCode := none }

/-- The envelope a domain service returns after `handleApiError`
(the `BsebErrorResponse` object, cast to the domain response type: it has
no `data` and no `cached` field). -/
def errorEnvelope {α : Type} (r : BsebErrorResponse) : Envelope α :=
  { success := false, data := none, message := some r.message,
    cached := none, errorCode := some r.errorCode }

/-! ## Cache store adapter (`getFromCache` / `setInCache` / `deleteFromCache`) -/

/-- The Redis store together with failure flags for each operation: when a
flag is set, the corresponding `redisService` call throws (connectivity /
serialization failure).  The store is an association list; the newest entry
for a key shadows older ones.  TTLs are accepted but the model keeps no
clock. -/
structure CacheWorld (α : Type) where
  store : List (String × α)
  getThrows : Bool
  setThrows : Bool
  delThrows : Bool

/-- Lookup in the store (the successful path of `redisService.get` plus
`JSON.parse`). -/
def cacheLookup {α : Type} (store : List (String × α)) (k : String) :
    Option α :=
  (store.find? (fun p => p.1 == k)).map (·.2)

/-- Embeds `BsebBaseService.getFromCache(cacheKey)`: a throwing store is caught,
logged and treated as a miss (`null`). -/
def getFromCache {α : Type} (w : CacheWorld α) (k : String) : Option α :=
  if w.getThrows then none else cacheLookup w.store k

/-- Embeds `BsebBaseService.setInCache(cacheKey, data, ttlSeconds)`: a throwing
store is caught and the write is a no-op; otherwise the entry is written.
Returns the store after the call. -/
def setInCache {α : Type} (w : CacheWorld α) (k : String) (v : α)
    (_ttlSeconds : Nat) : List (String × α) :=
  if w.setThrows then w.store else (k, v) :: w.store

/-- Embeds `BsebBaseService.deleteFromCache(cacheKey)`: a throwing store is caught
and the delete is a no-op.  Returns the store after the call. -/
def deleteFromCache {α : Type} (w : CacheWorld α) (k : String) :
    List (String × α) :=
  if w.delThrows then w.store else w.store.filter (fun p => p.1 != k)

/-! ## Normalized records -/

/-- Embeds `AddressData` (form-data DTO); every leaf keeps the dynamic value the
transformer read. -/
structure AddressData where
  city : JVal
  address : JVal
  pincode : JVal
  district : JVal
  state : JVal

/-- Embeds `SubjectDetail` (form-data DTO). -/
structure SubjectDetail where
  name : JVal
  code : JVal
  isChecked : JVal
  readonly : JVal

/-- Embeds `SubjectsData` (form-data DTO). -/
structure SubjectsData where
  mil : Option SubjectDetail
  sil : Option SubjectDetail
  optional : Option SubjectDetail
  vocational : Option SubjectDetail
  compulsory1 : Option SubjectDetail
  compulsory2 : Option SubjectDetail
  compulsory3 : Option SubjectDetail
  compulsory4 : Option SubjectDetail

/-- Embeds `StudentFormData`: the normalized form-data record, including the
`rawData` field that keeps the raw upstream payload. -/
structure StudentFormData where
  schoolCode : JVal
  schoolName : JVal
  registrationNumber : JVal
  applicationNumber : JVal
  name : JVal
  fatherName : JVal
  motherName : JVal
  dateOfBirth : JVal
  gender : JVal
  caste : JVal
  category : JVal
  religion : JVal
  nationality : JVal
  area : JVal
  isDifferentlyAbled : JVal
  isVisuallyImpaired : JVal
  maritalStatus : JVal
  medium : JVal
  mobile : JVal
  email : JVal
  address : Option AddressData
  subjects : Option SubjectsData
  photoUrl : JVal
  signatureUrl : JVal
  rawData : JVal

/-- Embeds `AdmitCardStudentDetails` (admit-card DTO). -/
structure AdmitCardStudentDetails where
  studentName : JVal
  fatherName : JVal
  motherName : JVal
  dateOfBirth : JVal
  gender : JVal
  registrationNumber : JVal
  rollCode : JVal
  rollNumber : JVal
  schoolName : JVal
  schoolCode : JVal
  casteCategory : JVal
  religion : JVal
  examType : JVal
  examCenterName : JVal
  examCenterCode : JVal

/-- Embeds `AdmitCardSubjectDetails` (admit-card DTO). -/
structure AdmitCardSubjectDetail where
  subjectName : JVal
  subjectCode : JVal
  subjectGroup : JVal
  examDate : JVal
  examTime : JVal
  examShift : JVal

/-- Embeds `AdmitCardData`: the normalized admit-card record.  The POST-variant
transformer returns `{studentDetails, subjectDetails}` (leaving `photoUrl`
undefined); the GET-variant transformer additionally sets `photoUrl`. -/
structure AdmitCardData where
  studentDetails : AdmitCardStudentDetails
  subjectDetails : List AdmitCardSubjectDetail
  photoUrl : JVal

/-- Embeds `AdmitCardType` (`'theory' | 'practical'`). -/
inductive AdmitCardType where
  | theory
  | practical
deriving DecidableEq

/-- The string value of the enum member (used in cache keys and contexts). -/
def AdmitCardType.str : AdmitCardType → String
  | .theory => "theory"
  | .practical => "practical"

/-! ## Response transformers -/

/-- Embeds `FormDataService.transformSubject(rawSubject)`. -/
def transformSubject (raw : JVal) : Option SubjectDetail :=
  if !raw.truthy then none
  else some
    { name := raw.get "name"
      code := raw.get "code"
      isChecked := jsNullishOr (raw.get "is_checked") (JVal.jbool false)
      readonly := jsNullishOr (raw.get "readonly") (JVal.jbool true) }

/-- Embeds `FormDataService.transformSubjects(rawSubjects)`. -/
def transformSubjects (raw : JVal) : Option SubjectsData :=
  if !raw.truthy then none
  else some
    { mil := transformSubject (raw.get "mil")
      sil := transformSubject (raw.get "sil")
      optional := transformSubject (raw.get "optional")
      vocational := transformSubject (raw.get "vocational")
      compulsory1 := transformSubject (raw.get "compulsory_1")
      compulsory2 := transformSubject (raw.get "compulsory_2")
      compulsory3 := transformSubject (raw.get "compulsory_3")
      compulsory4 := transformSubject (raw.get "compulsory_4") }

/-- Embeds `FormDataService.transformAddress(rawAddress)`. -/
def transformAddress (raw : JVal) : Option AddressData :=
  if !raw.truthy then none
  else some
    { city := raw.get "city"
      address := raw.get "address"
      pincode := raw.get "pincode"
      district := raw.get "district"
      state := raw.get "state" }

/-- Embeds `FormDataService.transformResponse(raw)`: snake_case upstream fields to
the normalized camelCase record, raw payload preserved in `rawData`. -/
def transformFormData (raw : JVal) : StudentFormData :=
  { schoolCode := raw.get "school_code"
    schoolName := raw.get "school_name"
    registrationNumber := raw.get "reg_no"
    applicationNumber := raw.get "application_no"
    name := raw.get "name"
    fatherName := raw.get "father_name"
    motherName := raw.get "mother_name"
    dateOfBirth := raw.get "dob"
    gender := raw.get "gender"
    caste := raw.get "caste"
    category := raw.get "category"
    religion := raw.get "religion"
    nationality := raw.get "nationality"
    area := raw.get "area"
    isDifferentlyAbled := raw.get "is_differently_abled"
    isVisuallyImpaired := raw.get "is_visually_impaired"
    maritalStatus := raw.get "marital_status"
    medium := raw.get "medium"
    mobile := raw.get "mobile"
    email := raw.get "email"
    address := transformAddress (raw.get "address")
    subjects := transformSubjects (raw.get "subjects")
    photoUrl := raw.get "photo"
    signatureUrl := raw.get "sign"
    rawData := raw }

/-- Embeds `AdmitCardService.transformResponse(rawData)` — POST variant: the raw
record carries `StudentDetails`/`studentDetails` and
`SubjectDetails`/`subjectDetails` with inconsistent casing, reconciled by
`getFieldValue`; the raw payload is not kept. -/
def transformAdmitCardPost (rawData : JVal) : AdmitCardData :=
  let sd := (rawData.get "StudentDetails").orElse
    ((rawData.get "studentDetails").orElse (JVal.jobj []))
  let subj := (rawData.get "SubjectDetails").orElse
    ((rawData.get "subjectDetails").orElse (JVal.jarr []))
  { studentDetails :=
      { studentName := getFieldValue sd ["StudentName", "studentName"]
        fatherName := getFieldValue sd ["FatherName", "fatherName"]
        motherName := getFieldValue sd ["MotherName", "motherName"]
        dateOfBirth := getFieldValue sd ["DateOfBirth", "dateOfBirth"]
        gender := getFieldValue sd ["Gender", "gender"]
        registrationNumber :=
          getFieldValue sd ["RegistrationNumber", "registrationNumber"]
        rollCode := getFieldValue sd ["Rollcode", "RollCode", "rollcode", "rollCode"]
        rollNumber := getFieldValue sd ["RollNumber", "rollNumber"]
        schoolName := getFieldValue sd ["SchoolName", "schoolName"]
        schoolCode := getFieldValue sd ["SchoolCode", "schoolCode"]
        casteCategory := getFieldValue sd ["casteCategory", "CasteCategory"]
        religion := getFieldValue sd ["Religion", "religion"]
        examType := getFieldValue sd ["ExamType", "examType"]
        examCenterName := getFieldValue sd ["ExamCenterName", "examCenterName"]
        examCenterCode := getFieldValue sd ["ExamCenterCode", "examCenterCode"] }
    subjectDetails :=
      match subj with
      | .jarr xs =>
        xs.map (fun s =>
          { subjectName := getFieldValue s ["SubjectName", "subjectName"]
            subjectCode := getFieldValue s ["SubjectCode", "subjectCode"]
            subjectGroup := getFieldValue s ["SubjectGroup", "subjectGroup"]
            examDate := getFieldValue s ["ExamDate", "examDate"]
            examTime := getFieldValue s ["ExamTime", "examTime"]
            examShift := getFieldValue s ["ExamShift", "examShift"] })
      | _ => []
    photoUrl := JVal.undef }

/-- JavaScript `key.replace('_', ' ')` (string pattern: first occurrence
only). -/
def replaceFirstUnderscore (s : String) : String :=
  match s.splitOn "_" with
  | [] => s
  | [x] => x
  | x :: y :: rest => x ++ " " ++ String.intercalate "_" (y :: rest)

/-- The ordered subject slots the GET-variant transformer scans. -/
def subjectKeys : List String :=
  ["mil", "sil", "compulsory_1", "compulsory_2", "compulsory_3",
    "compulsory_4", "optional", "vocational"]

/-- Embeds `AdmitCardService.transformResponse(rawData, type)` — GET variant:
builds the subject list from the form-data subject slots (exam date / time /
shift are not available from this source and are left blank) and maps the
snake_case student fields, defaulting absent fields to `''`; the raw payload
is not kept. -/
def transformAdmitCardGet (rawData : JVal) (type : AdmitCardType) :
    AdmitCardData :=
  let subjects := (rawData.get "subjects").orElse (JVal.jobj [])
  let subjectList := subjectKeys.filterMap (fun key =>
    if (subjects.get key).truthy && ((subjects.get key).get "name").truthy then
      some
        { subjectName := (subjects.get key).get "name"
          subjectCode := ((subjects.get key).get "code").orElse (JVal.jstr "")
          subjectGroup := JVal.jstr (replaceFirstUnderscore key)
          examDate := JVal.jstr ""
          examTime := JVal.jstr ""
          examShift := JVal.jstr "" }
    else none)
  { studentDetails :=
      { studentName := (rawData.get "name").orElse (JVal.jstr "")
        fatherName := (rawData.get "father_name").orElse (JVal.jstr "")
        motherName := (rawData.get "mother_name").orElse (JVal.jstr "")
        dateOfBirth := (rawData.get "dob").orElse (JVal.jstr "")
        gender := (rawData.get "gender").orElse (JVal.jstr "")
        registrationNumber := (rawData.get "reg_no").orElse (JVal.jstr "")
        rollCode := (rawData.get "roll_code").orElse (JVal.jstr "")
        rollNumber := (rawData.get "roll_no").orElse (JVal.jstr "")
        schoolName := (rawData.get "school_name").orElse (JVal.jstr "")
        schoolCode := (rawData.get "school_code").orElse (JVal.jstr "")
        casteCategory := (rawData.get "category").orElse (JVal.jstr "")
        religion := (rawData.get "religion").orElse (JVal.jstr "")
        examType := JVal.jstr
          (match type with
            | .theory => "Theory"
            | .practical => "Practical")
        examCenterName := (rawData.get "exam_center_name").orElse
          ((rawData.get "school_name").orElse (JVal.jstr ""))
        examCenterCode := (rawData.get "exam_center_code").orElse
          ((rawData.get "school_code").orElse (JVal.jstr "")) }
    subjectDetails := subjectList
    photoUrl := (rawData.get "photo").orElse (JVal.jstr "") }

/-! ## Domain service fetch orchestration -/

/-- The outer envelope the form-data upstream answers with
(`{success, data, message?}`); `data` is kept as a dynamic value because the
services test its JavaScript truthiness (`!apiResponse.data`). -/
structure ApiEnvelope where
  success : Bool
  data : JVal
  message : Option String

/-- The side effects a single `fetch` run performed, recorded alongside the
returned envelope: how many cache reads, upstream HTTP calls and cache-write
attempts it made, how many times the error normalizer ran, and whether the
returned data was served from the cache store. -/
structure RunTrace where
  cacheGets : Nat
  upstreamCalls : Nat
  cacheSetAttempts : Nat
  normalizerCalls : Nat
  servedFromCache : Bool
deriving DecidableEq

/-- A finished `fetch` run: the envelope returned to the caller, the cache
store after the run, and the side-effect trace. -/
structure FetchRun (α : Type) where
  envelope : Envelope α
  store : List (String × α)
  trace : RunTrace

/-- Cache key of a form-data entry (`{cachePrefix}:{registrationNumber}`). -/
def formDataCacheKey (registrationNumber : String) : String :=
  formDataCacheNs ++ ":" ++ registrationNumber

/-- Embeds `FormDataService.getFormData(registrationNumber)`, with the upstream
HTTP call (already wrapped in the retry policy) given as an oracle:
cache-aside lookup, upstream-envelope inspection, transform, best-effort
cache write. -/
def getFormData (registrationNumber : String)
    (w : CacheWorld StudentFormData)
    (upstream : Except UpstreamError ApiEnvelope) :
    FetchRun StudentFormData :=
  let cacheKey := formDataCacheKey registrationNumber
  match getFromCache w cacheKey with
  | some cachedData =>
    { envelope := createSuccessResponse cachedData true
      store := w.store
      trace := ⟨1, 0, 0, 0, true⟩ }
  | none =>
    match upstream with
    | .error e =>
      { envelope := errorEnvelope (handleApiError e "form-data")
        store := w.store
        trace := ⟨1, 1, 0, 1, false⟩ }
    | .ok api =>
      if !api.success || !api.data.truthy then
        { envelope :=
            { success := false, data := none,
              message := some (jsMsgOr api.message
                "No data returned from BSEB API"),
              cached := none, errorCode := none }
          store := w.store
          trace := ⟨1, 1, 0, 0, false⟩ }
      else
        let formData := transformFormData api.data
        { envelope := createSuccessResponse formData false
          store := setInCache w cacheKey formData formDataCacheTtl
          trace := ⟨1, 1, 1, 0, false⟩ }

/-- Embeds `FormDataService.clearCache(registrationNumber)`: best-effort delete of
the single form-data entry.  Returns the store after the call. -/
def formDataClearCache (registrationNumber : String)
    (w : CacheWorld StudentFormData) : List (String × StudentFormData) :=
  deleteFromCache w (formDataCacheKey registrationNumber)

/-- Embeds `GetAdmitCardRequestDto`: all three identifying fields are optional
strings at runtime. -/
structure AdmitCardRequest where
  registrationNumber : Option String
  rollCode : Option String
  rollNumber : Option String

/-- JavaScript truthiness of an optional string DTO field
(absent or empty means falsy). -/
def dtoTruthy : Option String → Bool
  | none => false
  | some s => !s.isEmpty

/-- String interpolation of a possibly-absent DTO field
(`` `${dto.rollCode}` `` renders an absent field as `"undefined"`). -/
def interpOpt : Option String → String
  | none => "undefined"
  | some s => s

/-- Embeds `AdmitCardService.getIdentifier(dto)` (both variants): the registration
number when truthy, else `` `${rollCode}-${rollNumber}` ``. -/
def getIdentifier (dto : AdmitCardRequest) : String :=
  if dtoTruthy dto.registrationNumber then
    interpOpt dto.registrationNumber
  else
    interpOpt dto.rollCode ++ "-" ++ interpOpt dto.rollNumber

/-- Cache key of an admit-card entry
(`{cachePrefix}:{type}:{identifier}`). -/
def admitCardCacheKey (type : AdmitCardType) (identifier : String) : String :=
  admitCardCacheNs ++ ":" ++ type.str ++ ":" ++ identifier

/-- Embeds `AdmitCardService.getAdmitCard(dto, type)` — POST variant: no request
validation; cache-aside lookup keyed by `getIdentifier`, then a POST whose
raw response record is transformed and cached directly (the POST upstream
returns the record without an outer success envelope). -/
def getAdmitCardPost (dto : AdmitCardRequest) (type : AdmitCardType)
    (w : CacheWorld AdmitCardData)
    (upstream : Except UpstreamError JVal) : FetchRun AdmitCardData :=
  let identifier := getIdentifier dto
  let cacheKey := admitCardCacheKey type identifier
  match getFromCache w cacheKey with
  | some cachedData =>
    { envelope := createSuccessResponse cachedData true
      store := w.store
      trace := ⟨1, 0, 0, 0, true⟩ }
  | none =>
    match upstream with
    | .error e =>
      { envelope :=
          errorEnvelope (handleApiError e (type.str ++ "-admit-card"))
        store := w.store
        trace := ⟨1, 1, 0, 1, false⟩ }
    | .ok rawData =>
      let admitCardData := transformAdmitCardPost rawData
      { envelope := createSuccessResponse admitCardData false
        store := setInCache w cacheKey admitCardData admitCardCacheTtl
        trace := ⟨1, 1, 1, 0, false⟩ }

/-- Embeds `AdmitCardService.getAdmitCard(dto, type)` — GET variant: requires a
truthy `registrationNumber` before touching cache or network (synthetic
`success=false` otherwise), then the same cache-aside / envelope-inspection
flow as the form-data service, reusing the form-data upstream shape. -/
def getAdmitCardGet (dto : AdmitCardRequest) (type : AdmitCardType)
    (w : CacheWorld AdmitCardData)
    (upstream : Except UpstreamError ApiEnvelope) : FetchRun AdmitCardData :=
  if !(dtoTruthy dto.registrationNumber) then
    { envelope :=
        { success := false, data := none,
          message := some "Registration number is required",
          cached := none, errorCode := none }
      store := w.store
      trace := ⟨0, 0, 0, 0, false⟩ }
  else
    let identifier := interpOpt dto.registrationNumber
    let cacheKey := admitCardCacheKey type identifier
    match getFromCache w cacheKey with
    | some cachedData =>
      { envelope := createSuccessResponse cachedData true
        store := w.store
        trace := ⟨1, 0, 0, 0, true⟩ }
    | none =>
      match upstream with
      | .error e =>
        { envelope :=
            errorEnvelope (handleApiError e (type.str ++ "-admit-card"))
          store := w.store
          trace := ⟨1, 1, 0, 1, false⟩ }
      | .ok api =>
        if !api.success || !api.data.truthy then
          { envelope :=
              { success := false, data := none,
                message := some (jsMsgOr api.message
                  "No data returned from BSEB API"),
                cached := none, errorCode := none }
            store := w.store
            trace := ⟨1, 1, 0, 0, false⟩ }
        else
          let admitCardData := transformAdmitCardGet api.data type
          { envelope := createSuccessResponse admitCardData false
            store := setInCache w cacheKey admitCardData admitCardCacheTtl
            trace := ⟨1, 1, 1, 0, false⟩ }

/-! ## Theorems: retry policy -/

/-- The retry loop under all-transient failures, from an arbitrary attempt
with `fuel` retries remaining: every remaining attempt runs, the delays are
`d*(attempt+1), …, d*(attempt+fuel)`, and the error of the last attempt is
rethrown. -/
theorem retryGo_transient {α : Type} (op : Nat → Except UpstreamError α)
    (errs : Nat → UpstreamError) (d : Nat) :
    ∀ (fuel attempt : Nat),
    (∀ i, attempt ≤ i → i ≤ attempt + fuel → op i = .error (errs i)) →
    (∀ i, attempt ≤ i → i ≤ attempt + fuel → isClientError (errs i) = false) →
    retryGo op d attempt fuel =
      ⟨.error (errs (attempt + fuel)), fuel + 1,
        (List.range' (attempt + 1) fuel).map (fun j => d * j)⟩ := by
  intro fuel
  induction fuel with
  | zero =>
    intro attempt hop _htr
    simp only [retryGo, hop attempt le_rfl (Nat.le_add_right _ _),
      Nat.add_zero, List.range'_zero, List.map_nil]
  | succ f ih =>
    intro attempt hop htr
    have hop0 := hop attempt le_rfl (Nat.le_add_right _ _)
    have htr0 := htr attempt le_rfl (Nat.le_add_right _ _)
    have hrec := ih (attempt + 1)
      (fun i h1 h2 => hop i (by omega) (by omega))
      (fun i h1 h2 => htr i (by omega) (by omega))
    simp only [retryGo, hop0, htr0, Bool.false_eq_true, if_false, hrec]
    have harith : attempt + 1 + f = attempt + (f + 1) := by omega
    rw [harith, List.range'_succ]
    simp [List.map_cons]

/-- C1: for an operation whose failures are all transient (HTTP ≥500,
network-level timeout, or any non-HTTP network error — none is a client
error), `executeWithRetry` invokes the operation exactly `retries + 1`
times, sleeps `d * attemptNumber` between consecutive attempts (attempt
numbers 1-indexed, hence for `0 < d` strictly increasing delays), and
rethrows the error observed on the final attempt unchanged. -/
theorem executeWithRetry_transient_exhausts {α : Type}
    (op : Nat → Except UpstreamError α) (errs : Nat → UpstreamError)
    (retries d : Nat)
    (hop : ∀ i, i ≤ retries → op i = .error (errs i))
    (htr : ∀ i, i ≤ retries → isClientError (errs i) = false) :
    executeWithRetry op retries d =
      ⟨.error (errs retries), retries + 1,
        (List.range' 1 retries).map (fun j => d * j)⟩ ∧
    (0 < d →
      ((List.range' 1 retries).map (fun j => d * j)).Pairwise (· < ·)) := by
  constructor
  · have h := retryGo_transient op errs d retries 0
      (fun i h1 h2 => hop i (by omega)) (fun i h1 h2 => htr i (by omega))
    simpa using h
  · intro hd
    exact (List.pairwise_lt_range' 1 retries).map _
      (fun a b hab => (Nat.mul_lt_mul_left hd).mpr hab)

/-- Witness for C1: two retries, base delay 1000, every attempt failing
with HTTP 500: three invocations, delays 1000 then 2000, the 500 error
rethrown. -/
theorem executeWithRetry_transient_exhausts_witness :
    executeWithRetry (fun _ => .error (.http 500 none) : Nat → Except UpstreamError Nat)
        retryAttemptsConfig retryDelayConfig =
      ⟨.error (.http 500 none), 3, [1000, 2000]⟩ := by
  have h := executeWithRetry_transient_exhausts
    (fun _ => .error (.http 500 none) : Nat → Except UpstreamError Nat)
    (fun _ => .http 500 none) retryAttemptsConfig retryDelayConfig
    (fun _ _ => rfl) (fun _ _ => rfl)
  simpa [retryAttemptsConfig, retryDelayConfig] using h.1

/-- C2: an operation whose first attempt fails with an HTTP error carrying a
status in `[400, 500)` is invoked exactly once, no delay is performed, and
the error is rethrown immediately. -/
theorem executeWithRetry_clientError_noRetry {α : Type}
    (op : Nat → Except UpstreamError α) (retries d : Nat) (status : Nat)
    (body : Option String)
    (hop : op 0 = .error (.http status body))
    (hlo : 400 ≤ status) (hhi : status < 500) :
    executeWithRetry op retries d = ⟨.error (.http status body), 1, []⟩ := by
  have hce : isClientError (.http status body) = true := by
    simp [isClientError, hlo, hhi]
  cases retries with
  | zero => simp [executeWithRetry, retryGo, hop]
  | succ r => simp [executeWithRetry, retryGo, hop, hce]

/-- Witness for C2: a 404 on the first attempt with the configured retry
budget: one invocation, no delays, the 404 rethrown. -/
theorem executeWithRetry_clientError_noRetry_witness :
    executeWithRetry (fun _ => .error (.http 404 none) : Nat → Except UpstreamError Nat)
        retryAttemptsConfig retryDelayConfig =
      ⟨.error (.http 404 none), 1, []⟩ :=
  executeWithRetry_clientError_noRetry
    (fun _ => .error (.http 404 none)) retryAttemptsConfig retryDelayConfig
    404 none rfl (by omega) (by omega)

/-! ## Theorems: error normalizer -/

/-- C3: for every error value, `handleApiError` returns exactly the
classification of the spec's ordered mapping table (first match wins):
404 → NOT_FOUND, 400 → BAD_REQUEST, 401/403 → UNAUTHORIZED,
≥500 → SERVER_ERROR, any other HTTP status with a response body →
API_ERROR, connection timeout → TIMEOUT, DNS failure / connection refused →
UNAVAILABLE, anything else → UNKNOWN_ERROR — and the returned code is
always one of these eight. -/
theorem handleApiError_matches_spec_table (e : UpstreamError)
    (context : String) :
    (handleApiError e context).errorCode = specClassify e ∧
    (handleApiError e context).errorCode ∈
      [ErrorCode.NOT_FOUND, ErrorCode.BAD_REQUEST, ErrorCode.UNAUTHORIZED,
        ErrorCode.SERVER_ERROR, ErrorCode.API_ERROR, ErrorCode.TIMEOUT,
        ErrorCode.UNAVAILABLE, ErrorCode.UNKNOWN_ERROR] := by
  cases e with
  | http status body =>
    simp only [handleApiError, specClassify, specTable, firstMatch,
      UpstreamError.httpStatus, UpstreamError.hasResponse,
      UpstreamError.netCode]
    split_ifs <;> simp_all <;> omega
  | network code =>
    simp only [handleApiError, specClassify, specTable, firstMatch,
      UpstreamError.httpStatus, UpstreamError.hasResponse,
      UpstreamError.netCode]
    split_ifs <;> simp_all
  | nonAxios =>
    simp [handleApiError, specClassify, specTable, firstMatch,
      UpstreamError.httpStatus, UpstreamError.hasResponse,
      UpstreamError.netCode]

/-! ## Theorems: field reconciliation -/

/-- C8: `getFieldValue` is a deterministic first-listed-key-wins lookup: it
returns the value of the first listed key whose value on the raw object is
defined and non-null, and `undefined` when no candidate matches; in
particular on a raw record whose student details carry both
`StudentName: "A"` and `studentName: "B"`, the POST-variant transformer
picks the first-listed candidate `"A"`. -/
theorem getFieldValue_first_listed_wins (obj : JVal) (keys : List String) :
    getFieldValue obj keys =
      (match keys.find? (fun k => !(obj.get k).nullish) with
        | some k => obj.get k
        | none => JVal.undef) ∧
    (transformAdmitCardPost (JVal.jobj
        [("StudentDetails", JVal.jobj
          [("StudentName", JVal.jstr "A"),
            ("studentName", JVal.jstr "B")])])).studentDetails.studentName
      = JVal.jstr "A" := by
  constructor
  · induction keys with
    | nil => simp [getFieldValue]
    | cons k ks ih =>
      by_cases h : (obj.get k).nullish
      · simp [getFieldValue, h, List.find?_cons, ih]
      · simp [getFieldValue, h, List.find?_cons]
  · rfl

/-! ## Theorems: domain service fetch orchestration -/

/-- C7: every envelope returned by a domain-service fetch (form-data,
GET-variant admit-card, POST-variant admit-card) satisfies the envelope
invariant: `success = false` implies `data` is absent and `message` is
present, and `cached = true` exactly when the returned data was served from
the cache store rather than a fresh upstream call. -/
theorem fetch_envelope_invariant :
    (∀ (reg : String) (w : CacheWorld StudentFormData)
        (up : Except UpstreamError ApiEnvelope),
      ((getFormData reg w up).envelope.success = false →
        (getFormData reg w up).envelope.data = none ∧
        (getFormData reg w up).envelope.message.isSome = true) ∧
      ((getFormData reg w up).envelope.cached = some true ↔
        (getFormData reg w up).trace.servedFromCache = true)) ∧
    (∀ (dto : AdmitCardRequest) (type : AdmitCardType)
        (w : CacheWorld AdmitCardData)
        (up : Except UpstreamError ApiEnvelope),
      ((getAdmitCardGet dto type w up).envelope.success = false →
        (getAdmitCardGet dto type w up).envelope.data = none ∧
        (getAdmitCardGet dto type w up).envelope.message.isSome = true) ∧
      ((getAdmitCardGet dto type w up).envelope.cached = some true ↔
        (getAdmitCardGet dto type w up).trace.servedFromCache = true)) ∧
    (∀ (dto : AdmitCardRequest) (type : AdmitCardType)
        (w : CacheWorld AdmitCardData)
        (up : Except UpstreamError JVal),
      ((getAdmitCardPost dto type w up).envelope.success = false →
        (getAdmitCardPost dto type w up).envelope.data = none ∧
        (getAdmitCardPost dto type w up).envelope.message.isSome = true) ∧
      ((getAdmitCardPost dto type w up).envelope.cached = some true ↔
        (getAdmitCardPost dto type w up).trace.servedFromCache = true)) := by
  refine ⟨?_, ?_, ?_⟩
  · intro reg w up
    rcases hz : getFromCache w (formDataCacheKey reg) with _ | v
    · rcases up with e | api
      · simp [getFormData, hz, errorEnvelope]
      · by_cases hc : (!api.success || !api.data.truthy) = true
        · simp [getFormData, hz, hc]
        · simp [getFormData, hz, hc, createSuccessResponse]
    · simp [getFormData, hz, createSuccessResponse]
  · intro dto type w up
    by_cases hreg : dtoTruthy dto.registrationNumber = true
    · rcases hz : getFromCache w
          (admitCardCacheKey type (interpOpt dto.registrationNumber))
        with _ | v
      · rcases up with e | api
        · simp [getAdmitCardGet, hreg, hz, errorEnvelope]
        · by_cases hc : (!api.success || !api.data.truthy) = true
          · simp [getAdmitCardGet, hreg, hz, hc]
          · simp [getAdmitCardGet, hreg, hz, hc, createSuccessResponse]
      · simp [getAdmitCardGet, hreg, hz, createSuccessResponse]
    · simp [getAdmitCardGet, hreg]
  · intro dto type w up
    rcases hz : getFromCache w (admitCardCacheKey type (getIdentifier dto))
      with _ | v
    · rcases up with e | api
      · simp [getAdmitCardPost, hz, errorEnvelope]
      · simp [getAdmitCardPost, hz, createSuccessResponse]
    · simp [getAdmitCardPost, hz, createSuccessResponse]

/-- C5: when the cache misses and the form-data upstream answers 2xx but its
own `success` flag is false or its `data` is absent (falsy), `getFormData`
returns a `success=false` envelope carrying the upstream's message (with the
`'No data returned from BSEB API'` fallback), never invokes the error
normalizer, and leaves the cache store unchanged (no write is attempted). -/
theorem formdata_upstream_reported_failure
    (reg : String) (w : CacheWorld StudentFormData) (api : ApiEnvelope)
    (hmiss : getFromCache w (formDataCacheKey reg) = none)
    (hfail : api.success = false ∨ api.data.truthy = false) :
    getFormData reg w (.ok api) =
      ⟨⟨false, none,
          some (jsMsgOr api.message "No data returned from BSEB API"),
          none, none⟩,
        w.store, ⟨1, 1, 0, 0, false⟩⟩ ∧
    (∀ m, api.message = some m → m.isEmpty = false →
      (getFormData reg w (.ok api)).envelope.message = some m) := by
  have hcond : (!api.success || !api.data.truthy) = true := by
    rcases hfail with h | h <;> simp [h]
  have hrun : getFormData reg w (.ok api) =
      ⟨⟨false, none,
          some (jsMsgOr api.message "No data returned from BSEB API"),
          none, none⟩,
        w.store, ⟨1, 1, 0, 0, false⟩⟩ := by
    simp [getFormData, hmiss, hcond]
  refine ⟨hrun, ?_⟩
  intro m hm hne
  rw [hrun]
  simp [jsMsgOr, hm, hne]

/-- Witness for C5: upstream answers `{success:false, message:"x"}` on a
cache miss; the fetch returns `success=false` with message `"x"`, zero
normalizer calls, zero cache writes, and the (empty) store unchanged. -/
theorem formdata_upstream_reported_failure_witness :
    getFormData "91341-00009-24" ⟨[], false, false, false⟩
        (.ok ⟨false, JVal.undef, some "x"⟩) =
      ⟨⟨false, none, some "x", none, none⟩, [], ⟨1, 1, 0, 0, false⟩⟩ := by
  have h := formdata_upstream_reported_failure "91341-00009-24"
    ⟨[], false, false, false⟩ ⟨false, JVal.undef, some "x"⟩
    rfl (Or.inl rfl)
  simpa [jsMsgOr] using h.1

/-- C6: cache operations are best-effort and never raise to the caller:
when the store throws on `get` the value is treated as a miss and the fetch
proceeds to the upstream, still returning `success=true` with the
transformed data and `cached=false`; when the store throws on `set` the
write is a no-op (store unchanged) and the envelope returned to the caller
is exactly the one returned when the write succeeds; when the store throws
on `delete`, `clearCache` is a no-op on the store. -/
theorem cache_best_effort
    (reg : String) (w w' w'' : CacheWorld StudentFormData)
    (api : ApiEnvelope) (up : Except UpstreamError ApiEnvelope)
    (hget : w.getThrows = true) (hsucc : api.success = true)
    (hdata : api.data.truthy = true) (hdel : w''.delThrows = true) :
    (getFormData reg w (.ok api)).envelope =
      createSuccessResponse (transformFormData api.data) false ∧
    (getFormData reg w (.ok api)).trace.upstreamCalls = 1 ∧
    ((getFormData reg { w' with setThrows := true } up).envelope =
        (getFormData reg { w' with setThrows := false } up).envelope ∧
      (getFormData reg { w' with setThrows := true } up).store = w'.store) ∧
    formDataClearCache reg w'' = w''.store := by
  have hmiss : getFromCache w (formDataCacheKey reg) = none := by
    simp [getFromCache, hget]
  have hcond : (!api.success || !api.data.truthy) = false := by
    simp [hsucc, hdata]
  refine ⟨?_, ?_, ?_, ?_⟩
  · simp [getFormData, hmiss, hcond]
  · simp [getFormData, hmiss, hcond]
  · have hgf : ∀ b, getFromCache { w' with setThrows := b }
        (formDataCacheKey reg) = getFromCache w' (formDataCacheKey reg) := by
      intro b; rfl
    rcases hz : getFromCache w' (formDataCacheKey reg) with _ | v
    · rcases up with e | api'
      · simp [getFormData, hgf, hz]
      · by_cases hc : (!api'.success || !api'.data.truthy) = true
        · simp [getFormData, hgf, hz, hc]
        · simp [getFormData, hgf, hz, hc, setInCache]
    · simp [getFormData, hgf, hz]
  · simp [formDataClearCache, deleteFromCache, hdel]

/-- Witness for C6: cache store that throws on `get` over an empty store; a
successful upstream envelope still yields `success=true`, `cached=false`
with the transformed data and one upstream call; a throwing `set` leaves the
store unchanged without affecting the envelope, and a throwing `delete`
leaves the store unchanged. -/
theorem cache_best_effort_witness :
    (getFormData "91341-00009-24" ⟨[], true, false, false⟩
        (.ok ⟨true, JVal.jobj [("name", JVal.jstr "S")], none⟩)).envelope =
      createSuccessResponse
        (transformFormData (JVal.jobj [("name", JVal.jstr "S")])) false ∧
    (getFormData "91341-00009-24" ⟨[], true, false, false⟩
        (.ok ⟨true, JVal.jobj [("name", JVal.jstr "S")], none⟩)).trace.upstreamCalls
      = 1 ∧
    ((getFormData "91341-00009-24"
          { (⟨[], false, false, false⟩ : CacheWorld StudentFormData) with
            setThrows := true }
          (.ok ⟨true, JVal.jobj [("name", JVal.jstr "S")], none⟩)).envelope =
        (getFormData "91341-00009-24"
          { (⟨[], false, false, false⟩ : CacheWorld StudentFormData) with
            setThrows := false }
          (.ok ⟨true, JVal.jobj [("name", JVal.jstr "S")], none⟩)).envelope ∧
      (getFormData "91341-00009-24"
          { (⟨[], false, false, false⟩ : CacheWorld StudentFormData) with
            setThrows := true }
          (.ok ⟨true, JVal.jobj [("name", JVal.jstr "S")], none⟩)).store = []) ∧
    formDataClearCache "91341-00009-24" ⟨[], false, false, true⟩ = [] :=
  cache_best_effort "91341-00009-24" ⟨[], true, false, false⟩
    ⟨[], false, false, false⟩ ⟨[], false, false, true⟩
    ⟨true, JVal.jobj [("name", JVal.jstr "S")], none⟩
    (.ok ⟨true, JVal.jobj [("name", JVal.jstr "S")], none⟩)
    rfl rfl rfl rfl

/-- C4 counterexample: the POST-variant admit-card fetch performs no
identifier validation.  A request supplying neither `registrationNumber`
nor the `rollCode`/`rollNumber` pair still triggers a cache read and an
upstream call, and even returns `success=true` when the upstream answers —
instead of the synthetic `success=false` envelope with zero upstream and
zero cache calls that the claim demands for every admit-card fetch. -/
theorem admitcard_post_skips_validation_cex :
    (getAdmitCardPost ⟨none, none, none⟩ .theory ⟨[], false, false, false⟩
        (.ok (JVal.jobj []))).envelope.success = true ∧
    (getAdmitCardPost ⟨none, none, none⟩ .theory ⟨[], false, false, false⟩
        (.ok (JVal.jobj []))).trace.upstreamCalls = 1 ∧
    (getAdmitCardPost ⟨none, none, none⟩ .theory ⟨[], false, false, false⟩
        (.ok (JVal.jobj []))).trace.cacheGets = 1 :=
  ⟨rfl, rfl, rfl⟩

/-- C4 (amended): in the GET-based admit-card variant, a request supplying
neither `registrationNumber` nor the `rollCode`/`rollNumber` pair gets the
synthetic `success=false` envelope with the identifier-required message and
zero upstream and zero cache calls; the POST-based variant performs no such
validation and always proceeds to the cache (one cache read even with no
identifier supplied). -/
theorem admitcard_fetch_missing_identifier
    (dto : AdmitCardRequest) (type : AdmitCardType)
    (w : CacheWorld AdmitCardData)
    (upGet : Except UpstreamError ApiEnvelope)
    (upPost : Except UpstreamError JVal)
    (hreg : dtoTruthy dto.registrationNumber = false)
    (_hrc : dtoTruthy dto.rollCode = false)
    (_hrn : dtoTruthy dto.rollNumber = false) :
    getAdmitCardGet dto type w upGet =
      ⟨⟨false, none, some "Registration number is required", none, none⟩,
        w.store, ⟨0, 0, 0, 0, false⟩⟩ ∧
    (getAdmitCardPost dto type w upPost).trace.cacheGets = 1 := by
  constructor
  · simp [getAdmitCardGet, hreg]
  · rcases hz : getFromCache w (admitCardCacheKey type (getIdentifier dto))
      with _ | v
    · rcases upPost with e | raw
      · simp [getAdmitCardPost, hz]
      · simp [getAdmitCardPost, hz]
    · simp [getAdmitCardPost, hz]

/-- Witness for C4 (amended): the empty request against an empty cache: the
GET variant answers the synthetic failure without touching anything; the
POST variant still reads the cache. -/
theorem admitcard_fetch_missing_identifier_witness :
    getAdmitCardGet ⟨none, none, none⟩ .theory ⟨[], false, false, false⟩
        (.ok ⟨true, JVal.jobj [], none⟩) =
      ⟨⟨false, none, some "Registration number is required", none, none⟩,
        [], ⟨0, 0, 0, 0, false⟩⟩ ∧
    (getAdmitCardPost ⟨none, none, none⟩ .theory ⟨[], false, false, false⟩
        (.ok (JVal.jobj [("x", JVal.jstr "y")]))).trace.cacheGets = 1 :=
  admitcard_fetch_missing_identifier ⟨none, none, none⟩ .theory
    ⟨[], false, false, false⟩ (.ok ⟨true, JVal.jobj [], none⟩)
    (.ok (JVal.jobj [("x", JVal.jstr "y")])) rfl rfl rfl

/-- C10: the GET-based admit-card variant rejects every request lacking a
truthy `registrationNumber` with a `success=false` envelope whose message is
`'Registration number is required'`, performing no cache and no upstream
call and leaving the store unchanged — even when both `rollCode` and
`rollNumber` are supplied. -/
theorem admitcard_get_requires_registration
    (dto : AdmitCardRequest) (type : AdmitCardType)
    (w : CacheWorld AdmitCardData)
    (up : Except UpstreamError ApiEnvelope)
    (hreg : dtoTruthy dto.registrationNumber = false) :
    getAdmitCardGet dto type w up =
      ⟨⟨false, none, some "Registration number is required", none, none⟩,
        w.store, ⟨0, 0, 0, 0, false⟩⟩ := by
  simp [getAdmitCardGet, hreg]

/-- Witness for C10: a request carrying only the `rollCode`/`rollNumber`
pair is still rejected by the GET variant with zero cache and upstream
calls. -/
theorem admitcard_get_requires_registration_witness :
    getAdmitCardGet ⟨none, some "71100", some "123456789"⟩ .practical
        ⟨[], false, false, false⟩ (.ok ⟨true, JVal.jobj [], none⟩) =
      ⟨⟨false, none, some "Registration number is required", none, none⟩,
        [], ⟨0, 0, 0, 0, false⟩⟩ :=
  admitcard_get_requires_registration ⟨none, some "71100", some "123456789"⟩
    .practical ⟨[], false, false, false⟩ (.ok ⟨true, JVal.jobj [], none⟩) rfl

/-! ## Theorems: raw payload preservation -/

/-- C9 counterexample: the POST-variant admit-card transformer does not
preserve the raw upstream payload: two distinct raw records differing only
in an unmapped field produce identical normalized records, so the raw
payload is not recoverable from the output. -/
theorem admitcard_transform_drops_raw_cex :
    transformAdmitCardPost (JVal.jobj [("ExtraUnmapped", JVal.jstr "x")]) =
      transformAdmitCardPost (JVal.jobj []) ∧
    JVal.jobj [("ExtraUnmapped", JVal.jstr "x")] ≠ JVal.jobj [] := by
  refine ⟨rfl, ?_⟩
  intro h
  simp at h

/-- C9 (amended): the form-data transformer preserves the raw upstream
payload in its `rawData` field; the admit-card transformers (both the POST
and the GET variant) do not keep the raw payload — each collapses raw
records that differ in unmapped fields. -/
theorem transform_raw_preservation_amended :
    (∀ raw : JVal, (transformFormData raw).rawData = raw) ∧
    (transformAdmitCardPost (JVal.jobj [("UnmappedField", JVal.jstr "v")]) =
        transformAdmitCardPost (JVal.jobj [("OtherUnmapped", JVal.jnum 7)]) ∧
      JVal.jobj [("UnmappedField", JVal.jstr "v")] ≠
        JVal.jobj [("OtherUnmapped", JVal.jnum 7)]) ∧
    (transformAdmitCardGet (JVal.jobj [("unmapped_extra", JVal.jstr "v")])
          .theory =
        transformAdmitCardGet (JVal.jobj [("other_unmapped", JVal.jnum 7)])
          .theory ∧
      JVal.jobj [("unmapped_extra", JVal.jstr "v")] ≠
        JVal.jobj [("other_unmapped", JVal.jnum 7)]) := by
  refine ⟨fun raw => rfl, ⟨rfl, ?_⟩, ⟨rfl, ?_⟩⟩
  · intro h
    simp at h
  · intro h
    simp at h

end Bseb
